import Mathlib

/-!
Verification development for the incus sources under review: the instance
interface and migration argument declarations
(internal/server/instance/instance_interface.go), certificate validation
(cmd/incusd/certificates.go), and the storage-volume backup HTTP handlers.
Go declarations are embedded as explicit description values (field and
method tables, with Go types written as they appear in the source); Go
functions are embedded as executable Lean functions.
-/

namespace Incus

/-- A Go type as it appears in a declaration: either a plain (non-function)
type rendered as source text, or a function type given by its parameter and
result type lists (each rendered as source text). -/
inductive GoTy where
  | base (s : String)
  | fn (args : List String) (rets : List String)
  deriving DecidableEq

/-- A named struct field together with its Go type. -/
structure GoField where
  name : String
  ty : GoTy
  deriving DecidableEq

/-- A method of a Go interface: name, parameter types, result types. -/
structure GoMethod where
  name : String
  args : List String
  rets : List String
  deriving DecidableEq

/-- A Go interface: its name, the interfaces it embeds, and its own methods. -/
structure GoInterface where
  name : String
  embeds : List String
  methods : List GoMethod
  deriving DecidableEq

/-- The ConfigReader interface (instance_interface.go). -/
def configReaderInterface : GoInterface :=
  ⟨"ConfigReader", [],
   [⟨"Project", [], ["api.Project"]⟩,
    ⟨"Type", [], ["instancetype.Type"]⟩,
    ⟨"Architecture", [], ["int"]⟩,
    ⟨"ID", [], ["int"]⟩,
    ⟨"Name", [], ["string"]⟩,
    ⟨"ExpandedConfig", [], ["map[string]string"]⟩,
    ⟨"ExpandedDevices", [], ["deviceConfig.Devices"]⟩,
    ⟨"LocalConfig", [], ["map[string]string"]⟩,
    ⟨"LocalDevices", [], ["deviceConfig.Devices"]⟩]⟩

/-- The Instance interface (instance_interface.go), every method in source
order. -/
def instanceInterface : GoInterface :=
  ⟨"Instance", ["ConfigReader"],
   [⟨"Freeze", [], ["error"]⟩,
    ⟨"Shutdown", ["time.Duration"], ["error"]⟩,
    ⟨"Start", ["bool"], ["error"]⟩,
    ⟨"Stop", ["bool"], ["error"]⟩,
    ⟨"Restart", ["time.Duration"], ["error"]⟩,
    ⟨"Rebuild", ["*api.Image", "*operations.Operation"], ["error"]⟩,
    ⟨"Unfreeze", [], ["error"]⟩,
    ⟨"ReloadDevice", ["string"], ["error"]⟩,
    ⟨"RegisterDevices", [], []⟩,
    ⟨"Info", [], ["Info"]⟩,
    ⟨"IsPrivileged", [], ["bool"]⟩,
    ⟨"Restore", ["Instance", "bool"], ["error"]⟩,
    ⟨"Snapshot", ["string", "time.Time", "bool"], ["error"]⟩,
    ⟨"Snapshots", [], ["[]Instance", "error"]⟩,
    ⟨"Backups", [], ["[]backup.InstanceBackup", "error"]⟩,
    ⟨"UpdateBackupFile", [], ["error"]⟩,
    ⟨"Rename", ["string", "bool"], ["error"]⟩,
    ⟨"Update", ["db.InstanceArgs", "bool"], ["error"]⟩,
    ⟨"Delete", ["bool"], ["error"]⟩,
    ⟨"Export", ["io.Writer", "io.Writer", "map[string]string", "time.Time", "*ioprogress.ProgressTracker"], ["*api.ImageMetadata", "error"]⟩,
    ⟨"CGroup", [], ["*cgroup.CGroup", "error"]⟩,
    ⟨"VolatileSet", ["map[string]string"], ["error"]⟩,
    ⟨"FileSFTPConn", [], ["net.Conn", "error"]⟩,
    ⟨"FileSFTP", [], ["*sftp.Client", "error"]⟩,
    ⟨"Console", ["string"], ["*os.File", "chan error", "error"]⟩,
    ⟨"Exec", ["api.InstanceExecPost", "*os.File", "*os.File", "*os.File"], ["Cmd", "error"]⟩,
    ⟨"Render", [], ["any", "any", "error"]⟩,
    ⟨"RenderWithUsage", [], ["any", "any", "error"]⟩,
    ⟨"RenderFull", ["[]net.Interface"], ["*api.InstanceFull", "any", "error"]⟩,
    ⟨"RenderState", ["[]net.Interface"], ["*api.InstanceState", "error"]⟩,
    ⟨"IsRunning", [], ["bool"]⟩,
    ⟨"IsFrozen", [], ["bool"]⟩,
    ⟨"IsEphemeral", [], ["bool"]⟩,
    ⟨"IsSnapshot", [], ["bool"]⟩,
    ⟨"IsStateful", [], ["bool"]⟩,
    ⟨"LockExclusive", [], ["*operationlock.InstanceOperation", "error"]⟩,
    ⟨"DeviceEventHandler", ["*deviceConfig.RunConfig"], ["error"]⟩,
    ⟨"OnHook", ["string", "map[string]string"], ["error"]⟩,
    ⟨"Location", [], ["string"]⟩,
    ⟨"CloudInitID", [], ["string"]⟩,
    ⟨"Description", [], ["string"]⟩,
    ⟨"CreationDate", [], ["time.Time"]⟩,
    ⟨"LastUsedDate", [], ["time.Time"]⟩,
    ⟨"Profiles", [], ["[]api.Profile"]⟩,
    ⟨"InitPID", [], ["int"]⟩,
    ⟨"State", [], ["string"]⟩,
    ⟨"ExpiryDate", [], ["time.Time"]⟩,
    ⟨"FillNetworkDevice", ["string", "deviceConfig.Device"], ["deviceConfig.Device", "error"]⟩,
    ⟨"ETag", [], ["[]any"]⟩,
    ⟨"Path", [], ["string"]⟩,
    ⟨"ExecOutputPath", [], ["string"]⟩,
    ⟨"RootfsPath", [], ["string"]⟩,
    ⟨"TemplatesPath", [], ["string"]⟩,
    ⟨"StatePath", [], ["string"]⟩,
    ⟨"LogFilePath", [], ["string"]⟩,
    ⟨"ConsoleBufferLogPath", [], ["string"]⟩,
    ⟨"LogPath", [], ["string"]⟩,
    ⟨"RunPath", [], ["string"]⟩,
    ⟨"DevicesPath", [], ["string"]⟩,
    ⟨"StoragePool", [], ["string", "error"]⟩,
    ⟨"CanMigrate", [], ["string"]⟩,
    ⟨"MigrateSend", ["MigrateSendArgs"], ["error"]⟩,
    ⟨"MigrateReceive", ["MigrateReceiveArgs"], ["error"]⟩,
    ⟨"SetOperation", ["*operations.Operation"], []⟩,
    ⟨"Operation", [], ["*operations.Operation"]⟩,
    ⟨"DeferTemplateApply", ["TemplateTrigger"], ["error"]⟩,
    ⟨"Metrics", ["[]net.Interface"], ["*metrics.MetricSet", "error"]⟩]⟩

/-- The Container interface (container-specific functions). -/
def containerInterface : GoInterface :=
  ⟨"Container", ["Instance"],
   [⟨"CurrentIdmap", [], ["*idmap.Set", "error"]⟩,
    ⟨"DiskIdmap", [], ["*idmap.Set", "error"]⟩,
    ⟨"NextIdmap", [], ["*idmap.Set", "error"]⟩,
    ⟨"ConsoleLog", ["liblxc.ConsoleLogOptions"], ["string", "error"]⟩,
    ⟨"InsertSeccompUnixDevice", ["string", "deviceConfig.Device", "int"], ["error"]⟩,
    ⟨"DevptsFd", [], ["*os.File", "error"]⟩,
    ⟨"IdmappedStorage", ["string", "string"], ["idmap.StorageType"]⟩]⟩

/-- The VM interface (VM-specific functions). -/
def vmInterface : GoInterface :=
  ⟨"VM", ["Instance"],
   [⟨"AgentCertificate", [], ["*x509.Certificate"]⟩,
    ⟨"ConsoleLog", [], ["string", "error"]⟩,
    ⟨"ConsoleScreenshot", ["*os.File"], ["error"]⟩,
    ⟨"DumpGuestMemory", ["*os.File", "string"], ["error"]⟩]⟩

/-- All interfaces declared in instance_interface.go. -/
def instanceFileInterfaces : List GoInterface :=
  [configReaderInterface, instanceInterface, containerInterface, vmInterface]

/-- The interfaces of the file that extend (embed) Instance: the variant
interfaces of the instance contract. -/
def instanceVariants : List GoInterface :=
  instanceFileInterfaces.filter (fun i => "Instance" ∈ i.embeds)

/-- Fields of the CriuMigrationArgs struct (arguments for CRIU migration). -/
def criuMigrationArgsFields : List GoField :=
  [⟨"Cmd", .base "uint"⟩,
   ⟨"StateDir", .base "string"⟩,
   ⟨"Function", .base "string"⟩,
   ⟨"Stop", .base "bool"⟩,
   ⟨"ActionScript", .base "bool"⟩,
   ⟨"DumpDir", .base "string"⟩,
   ⟨"PreDumpDir", .base "string"⟩,
   ⟨"Features", .base "liblxc.CriuFeatures"⟩,
   ⟨"Op", .base "*operationlock.InstanceOperation"⟩]

/-- Fields of the MigrateArgs struct (arguments for instance migration send
and receive). -/
def migrateArgsFields : List GoField :=
  [⟨"ControlSend", .fn ["proto.Message"] ["error"]⟩,
   ⟨"ControlReceive", .fn ["proto.Message"] ["error"]⟩,
   ⟨"StateConn", .fn ["context.Context"] ["io.ReadWriteCloser", "error"]⟩,
   ⟨"FilesystemConn", .fn ["context.Context"] ["io.ReadWriteCloser", "error"]⟩,
   ⟨"Snapshots", .base "bool"⟩,
   ⟨"Live", .base "bool"⟩,
   ⟨"Disconnect", .fn [] []⟩,
   ⟨"ClusterMoveSourceName", .base "string"⟩,
   ⟨"StoragePool", .base "string"⟩]

/-- Fields of the MigrateSendArgs struct: the embedded MigrateArgs fields
followed by the send-specific field. -/
def migrateSendArgsFields : List GoField :=
  migrateArgsFields ++ [⟨"AllowInconsistent", .base "bool"⟩]

/-- Fields of the MigrateReceiveArgs struct: the embedded MigrateArgs fields
followed by the receive-specific fields. -/
def migrateReceiveArgsFields : List GoField :=
  migrateArgsFields ++
    [⟨"InstanceOperation", .base "*operationlock.InstanceOperation"⟩,
     ⟨"Refresh", .base "bool"⟩,
     ⟨"RefreshExcludeOlder", .base "bool"⟩]

/-! ## Certificate validation (cmd/incusd/certificates.go) -/

/-- The public-key algorithm recorded in an x509 certificate
(cert.PublicKeyAlgorithm). Only RSA is treated specially by the daemon. -/
inductive PubKeyAlg where
  | rsa
  | ecdsa
  | ed25519
  | dsa
  deriving DecidableEq

/-- The parsed public key carried by a certificate (cert.PublicKey, of Go
type any). The type assertion to *rsa.PublicKey succeeds exactly on the
rsaKey variant; sizeBytes models rsa.PublicKey.Size(), the modulus size in
bytes. -/
inductive PubKey where
  | rsaKey (sizeBytes : Nat)
  | otherKey
  deriving DecidableEq

/-- The parts of an x509.Certificate that certificateValidate inspects.
Times are modelled as integers on a common timeline. -/
structure Certificate where
  notBefore : Int
  notAfter : Int
  publicKeyAlgorithm : PubKeyAlg
  publicKey : PubKey
  deriving DecidableEq

/-- The distinct errors certificateValidate can return, one per return
statement in the source. -/
inductive CertError where
  | notYetValid
  | expired
  | rsaCastFailed
  | rsaKeyTooWeak
  deriving DecidableEq

/-- certificateValidate (certificates.go): rejects a certificate whose
validity window excludes the current time, and an RSA certificate whose
key cannot be read as an RSA key or is below 2048 bits (Size returns
bytes, hence the *8). now models time.Now(). -/
def certificateValidate (now : Int) (cert : Certificate) : Option CertError :=
  if now < cert.notBefore then
    some .notYetValid
  else if cert.notAfter < now then
    some .expired
  else if cert.publicKeyAlgorithm = .rsa then
    match cert.publicKey with
    | .otherKey => some .rsaCastFailed
    | .rsaKey sizeBytes =>
      if sizeBytes * 8 < 2048 then some .rsaKeyTooWeak else none
  else
    none

/-- Outcome of the certificate-adding handler slice modelled below. -/
inductive CertPostOutcome where
  | badRequestNoClientCert
  | badRequestNonTLS
  | badRequest (e : CertError)
  | accepted (c : Certificate)
  deriving DecidableEq

/-- The certificate-extraction and validation steps of certificatesPost
(certificates.go lines 653-746): the certificate is taken from the request
body when supplied (reqCertificate models a non-empty req.Certificate that
parsed successfully), otherwise from the last TLS peer certificate
(tlsPeerCerts = none models a non-TLS connection); the chosen certificate
is then passed to certificateValidate, a failure becoming a BadRequest
response before anything is stored. The token-issuing branch, which adds
no certificate, is outside this slice. -/
def certificatesPostCertCheck (now : Int) (reqCertificate : Option Certificate)
    (tlsPeerCerts : Option (List Certificate)) : CertPostOutcome :=
  match reqCertificate with
  | some c =>
    match certificateValidate now c with
    | some e => .badRequest e
    | none => .accepted c
  | none =>
    match tlsPeerCerts with
    | none => .badRequestNonTLS
    | some peers =>
      match peers.getLast? with
      | none => .badRequestNoClientCert
      | some c =>
        match certificateValidate now c with
        | some e => .badRequest e
        | none => .accepted c

/-- Outcome of the certificate-replacement slice of doCertificateUpdate. -/
inductive CertUpdateOutcome where
  | badRequest (e : CertError)
  | updated (newCert : Option Certificate)
  deriving DecidableEq

/-- The certificate-replacement step of doCertificateUpdate
(certificates.go lines 1110-1133): when the request supplies a certificate
differing from the stored one (modelled by replacement = some c, parsing
assumed successful; a PEM failure returns earlier), it is validated with
certificateValidate before the database record is updated; otherwise the
record is updated without touching the certificate. -/
def doCertificateUpdateCertCheck (now : Int) (replacement : Option Certificate) :
    CertUpdateOutcome :=
  match replacement with
  | none => .updated none
  | some c =>
    match certificateValidate now c with
    | some e => .badRequest e
    | none => .updated (some c)

/-! ## Storage volume backup handlers (src/unnamed/part_000) -/

/-- internalInstance.SnapshotDelimiter, separating a volume name from a
backup or snapshot name. -/
def snapshotDelimiter : String := "/"

/-- The space table of the fmt scanner (fmt/scan.go var space): the
characters its SkipSpace skips. The newline 0x0a is inside the 0x09-0x0d
row of the table but is intercepted before the table is consulted, so it
is handled separately below. -/
def isGoSpace (c : Char) : Bool :=
  decide ((0x09 ≤ c.toNat ∧ c.toNat ≤ 0x0d) ∨ c.toNat = 0x20 ∨ c.toNat = 0x85 ∨
    c.toNat = 0xa0 ∨ c.toNat = 0x1680 ∨ (0x2000 ≤ c.toNat ∧ c.toNat ≤ 0x200a) ∨
    c.toNat = 0x2028 ∨ c.toNat = 0x2029 ∨ c.toNat = 0x202f ∨ c.toNat = 0x205f ∨
    c.toNat = 0x3000)

/-- Leading-whitespace skipping performed by the fmt scanner before a %d
verb, under Sscanf (where a newline does not count as space): a newline met
while skipping — including one right after a skipped carriage return — makes
the scan fail with an unexpected-newline error, modelled as none; other
space-table characters are skipped. -/
def scanSkipSpace : List Char → Option (List Char)
  | [] => some []
  | c :: cs =>
    if c = '\n' then none
    else if isGoSpace c then scanSkipSpace cs
    else some (c :: cs)

/-- Reads a maximal leading run of ASCII digits and returns its value;
none when there is no leading digit. -/
def scanDigits (cs : List Char) : Option Nat :=
  let ds := cs.takeWhile Char.isDigit
  if ds.isEmpty then none
  else some (ds.foldl (fun a c => a * 10 + (c.toNat - 48)) 0)

/-- strings.HasPrefix at character level: whether the second list begins
with the first. -/
def listHasPre : List Char → List Char → Bool
  | [], _ => true
  | _ :: _, [] => false
  | p :: ps, c :: cs => p == c && listHasPre ps cs

/-- fmt.Sscanf(s, sFmtD, n) with a lone %d verb scanning into a 64-bit Go
int, at character level: skip leading whitespace (failing on a newline,
which Sscanf does not treat as space), accept an optional sign, then read
decimal (ASCII) digits; trailing characters are left unconsumed and do not
cause an error. Returns none exactly when the scan fails — unexpected
newline, no digit (including end of input), or a strconv range error
because the value does not fit a signed 64-bit int — and some n when it
scans one integer; the caller skips the entry on none. The handler inputs
are treated at character level (bytes and characters coincide on ASCII). -/
def sscanfInt (s : List Char) : Option Int :=
  match scanSkipSpace s with
  | none => none
  | some ('-' :: rest) =>
    match scanDigits rest with
    | none => none
    | some n => if (n : Int) ≤ 2 ^ 63 then some (-(n : Int)) else none
  | some ('+' :: rest) =>
    match scanDigits rest with
    | none => none
    | some n => if (n : Int) ≤ 2 ^ 63 - 1 then some ((n : Int)) else none
  | some cs =>
    match scanDigits cs with
    | none => none
    | some n => if (n : Int) ≤ 2 ^ 63 - 1 then some ((n : Int)) else none

/-- Two's-complement wrap-around of Go arithmetic on a signed 64-bit int:
the unique value in the int64 range congruent mod 2^64. -/
def wrap64 (x : Int) : Int :=
  (x + 2 ^ 63) % 2 ^ 64 - 2 ^ 63

/-- One backup name considered by the naming loop of
storagePoolVolumeTypeCustomBackupsPost: names not starting with base are
skipped, otherwise the suffix after base (backup[len(base):]) is scanned
with Sscanf %d. -/
def backupSuffixNum (base backup : String) : Option Int :=
  if listHasPre base.data backup.data then
    sscanfInt (backup.data.drop base.data.length)
  else
    none

/-- The naming loop of storagePoolVolumeTypeCustomBackupsPost (lines
402-422): max starts at 0 and, for every enumerated backup whose suffix
scans to num with num >= max, becomes num + 1 — computed on a signed
64-bit Go int, so the increment wraps at the maximum int64. -/
def backupNumsFold (base : String) (backups : List String) : Int :=
  backups.foldl
    (fun m b =>
      match backupSuffixNum base b with
      | none => m
      | some num => if m ≤ num then wrap64 (num + 1) else m)
    0

/-- The default backup name computed by storagePoolVolumeTypeCustomBackupsPost
when the request carries an empty name (lines 390-425). -/
def backupsPostDefaultName (volumeName : String) (backups : List String) : String :=
  let base := volumeName ++ snapshotDelimiter ++ "backup"
  "backup" ++ toString (backupNumsFold base backups)

/-- A response from the backup handler slices modelled below: either the
BadRequest returned for a slash in the name (carrying its message), or the
background operation response carrying the name the operation acts on. -/
inductive BackupResponse where
  | badRequest (msg : String)
  | operationCreated (backupName : String)
  deriving DecidableEq

/-- The message of the slash rejection in both backup handlers. -/
def backupNamesNoSlashesMsg : String := "Backup names may not contain slashes"

/-- The tail of storagePoolVolumeTypeCustomBackupsPost after the request
body is decoded (lines 390-488): an empty requested name is replaced by
the generated default (existingBackups models the names returned by
GetStoragePoolVolumeBackupsNames), then a name containing a slash is
rejected with BadRequest before the backup operation is created. -/
def backupsPostTail (volumeName reqName : String) (existingBackups : List String) :
    BackupResponse :=
  let name := if reqName = "" then backupsPostDefaultName volumeName existingBackups else reqName
  if name.data.any (fun c => c == '/') then
    .badRequest backupNamesNoSlashesMsg
  else
    .operationCreated name

/-- The tail of storagePoolVolumeTypeCustomBackupPost (rename) after the
request body is decoded (lines 688-729): a requested name containing a
slash is rejected with BadRequest before the rename operation is created;
otherwise the operation renames to volumeName/reqName. -/
def backupRenamePostTail (volumeName reqName : String) : BackupResponse :=
  if reqName.data.any (fun c => c == '/') then
    .badRequest backupNamesNoSlashesMsg
  else
    .operationCreated (volumeName ++ snapshotDelimiter ++ reqName)

/-! The claim-side reading of backup naming (for C8): a backup counts only
when its name is exactly base followed by the canonical decimal digits of
k. -/

/-- Whether the character list is the canonical decimal-digit rendering of
some natural number: nonempty, all ASCII digits, and no leading zero
unless it is exactly the one-digit rendering of zero. -/
def isCanonicalNat : List Char → Bool
  | [] => false
  | ['0'] => true
  | c :: cs => !(c == '0') && (c :: cs).all Char.isDigit

/-- Value of an all-digit character list. -/
def digitsVal (cs : List Char) : Nat :=
  cs.foldl (fun a c => a * 10 + (c.toNat - 48)) 0

/-- The k such that backup = base ++ (decimal digits of k), when backup has
that exact shape. -/
def exactSuffixNum (base backup : String) : Option Nat :=
  if listHasPre base.data backup.data then
    let suffix := backup.data.drop base.data.length
    if isCanonicalNat suffix then some (digitsVal suffix) else none
  else none

/-- The claim-side generated number: one greater than the largest k for
which some existing backup is named base ++ digits(k); zero when there is
no such backup. -/
def claimSpecN (volumeName : String) (backups : List String) : Nat :=
  let base := volumeName ++ snapshotDelimiter ++ "backup"
  let nums := backups.filterMap (exactSuffixNum base)
  match nums with
  | [] => 0
  | _ => nums.foldr max 0 + 1

/-- Claim C8 as stated, for one input: the generated default name is
"backupN" with N as claimSpecN describes. -/
def claimC8At (volumeName : String) (backups : List String) : Prop :=
  backupsPostDefaultName volumeName backups = "backup" ++ Nat.repr (claimSpecN volumeName backups)

/-- The corrected characterization of the naming loop: the successor of
the largest nonnegative Sscanf-parsed suffix value, as an order-independent
maximum (zero when nothing nonnegative parses). It agrees with the loop
whenever no scanned value is the maximum int64, where the loop's increment
would wrap. -/
def backupNumsMax (base : String) (backups : List String) : Int :=
  (backups.filterMap (backupSuffixNum base)).foldr (fun p acc => max (p + 1) acc) 0

/-! ## Operation lock (spec-modelled) -/

/-- Modelled from the spec: the operationlock package
(operationlock.InstanceOperation, referenced by Instance.LockExclusive and
the migration argument structs) is not among the sources under review;
its state machine is taken from spec sections 3 and 4.1: state ranges over
Pending, Running, Succeeded, Failed, with the last two terminal. -/
inductive OpLockState where
  | pending
  | running
  | succeeded
  | failed
  deriving DecidableEq

/-- Whether a lock state is terminal (Succeeded or Failed). -/
def OpLockState.isTerminal : OpLockState → Bool
  | .succeeded => true
  | .failed => true
  | _ => false

/-- Modelled from the spec: a per-instance operation lock entry — the
action kind it was acquired for and its current state. -/
structure InstanceOperation where
  action : String
  state : OpLockState
  deriving DecidableEq

/-- Modelled from the spec: the per-daemon lock registry, keyed by
instance identifier; key uniqueness is the registry well-formedness
condition below. -/
abbrev LockRegistry := List (String × InstanceOperation)

/-- A registry is well-formed when no instance identifier appears twice,
so each instance holds at most one lock entry. -/
def lockRegistryWF (reg : LockRegistry) : Prop :=
  (reg.map Prod.fst).Nodup

/-- Lookup of the lock entry held for an instance. -/
def lockLookup : LockRegistry → String → Option InstanceOperation
  | [], _ => none
  | e :: t, instID => if e.fst == instID then some e.snd else lockLookup t instID

/-- Result of an acquisition attempt, per spec section 4.1: a fresh
pending lock (with the updated registry), the existing handle to await
(same action kind), or the LockConflict failure. -/
inductive AcquireResult where
  | acquired (reg : LockRegistry) (op : InstanceOperation)
  | existing (op : InstanceOperation)
  | lockConflict
  deriving DecidableEq

/-- Modelled from the spec: Acquire(instanceID, action). A non-terminal
lock held for the instance conflicts unless the action kind matches
exactly, in which case the existing handle is returned for awaiting; a
terminal (or absent) entry is replaced by a fresh Pending lock. -/
def lockAcquire (reg : LockRegistry) (instID action : String) : AcquireResult :=
  match lockLookup reg instID with
  | some op =>
    if op.state.isTerminal then
      .acquired
        (reg.map (fun e => if e.fst == instID then (e.fst, ⟨action, .pending⟩) else e))
        ⟨action, .pending⟩
    else if op.action == action then
      .existing op
    else
      .lockConflict
  | none => .acquired ((instID, ⟨action, .pending⟩) :: reg) ⟨action, .pending⟩

/-! ## Cluster move coordination (spec-modelled) -/

/-- Observable actions of a cluster move, in the order the coordinator
performs them. -/
inductive MoveEvent where
  | transferFilesystem
  | destinationAck
  | deleteSourceRecord
  deriving DecidableEq

/-- Terminal report of the overall cluster-move operation. -/
inductive MoveStatus where
  | succeeded
  | failed
  deriving DecidableEq

/-- Outcome of a cluster move: the reported status, whether the source
still holds the authoritative identity record (and hence can run the
workload), and the ordered trace of actions taken. -/
structure MoveOutcome where
  status : MoveStatus
  sourceRecordPresent : Bool
  events : List MoveEvent
  deriving DecidableEq

/-- Modelled from the spec: the ClusterMoveCoordinator (spec section 4.5)
is not among the sources under review; only MigrateArgs.ClusterMoveSourceName
is. Per the spec, record deletion is the last action taken, gated on the
destination ack: when the destination confirms activation the coordinator
deletes the source record after the ack and reports success; when it never
confirms (crash, disconnect, abort) the coordinator reports Failed and
leaves the source record intact. -/
def clusterMove (destConfirmsActivation : Bool) : MoveOutcome :=
  if destConfirmsActivation then
    ⟨.succeeded, false, [.transferFilesystem, .destinationAck, .deleteSourceRecord]⟩
  else
    ⟨.failed, true, [.transferFilesystem]⟩

/-- A trace never deletes the source record before a destination ack has
been observed: scanning from the start, no deleteSourceRecord occurs until
a destinationAck has. -/
def deletionGatedOnAck : List MoveEvent → Bool
  | [] => true
  | .destinationAck :: _ => true
  | .deleteSourceRecord :: _ => false
  | _ :: rest => deletionGatedOnAck rest

/-! ## Cluster-move source name (spec-modelled) -/

/-- A migration request as seen by the callers that build MigrateArgs:
whether this migration is an intra-cluster move, and, when it is, the name
of the source instance. -/
structure MigrationRequest where
  isClusterMove : Bool
  sourceInstance : String
  deriving DecidableEq

/-- Modelled from the spec: the callers that populate MigrateArgs are not
among the sources under review; the field doc comment in
instance_interface.go line 234 states that ClusterMoveSourceName is empty
when the migration is not a cluster move and otherwise names the source
instance. -/
def mkClusterMoveSourceName (req : MigrationRequest) : String :=
  if req.isClusterMove then req.sourceInstance else ""

/-! ## Claim-side statements (following the spec's words, for comparison
with the source embeddings above) -/

/-- Whether a Go type is a function type with the given type among its
parameters. -/
def GoTy.takesArg (t : GoTy) (a : String) : Bool :=
  match t with
  | .base _ => false
  | .fn args _ => args.contains a

/-- The MigrateArgs fields through which the three transfer channels
(control, state, filesystem) are established or driven. -/
def channelFieldNames : List String :=
  ["ControlSend", "ControlReceive", "StateConn", "FilesystemConn"]

/-- Claim C3 as stated: every channel-establishing function of
MigrateArgs takes a cancellation context. -/
def claimC3Stated : Prop :=
  ∀ f ∈ migrateArgsFields, f.name ∈ channelFieldNames →
    f.ty.takesArg "context.Context" = true

/-- Claim C4 as stated: the capability interface is polymorphic over
exactly two variants, and the live-migration capability query is a method
CanLiveMigrate returning bool. -/
def claimC4Stated : Prop :=
  instanceVariants.length = 2 ∧
    ∃ i ∈ instanceFileInterfaces, ∃ m ∈ i.methods,
      m.name = "CanLiveMigrate" ∧ m.rets = ["bool"]

/-- The field names claim C5 enumerates for the migration descriptor
(besides the instance identity): the configuration flags, the optional
cluster-move source name, the storage pool, and the channel functions. -/
def c5ListedFieldNames : List String :=
  ["ControlSend", "ControlReceive", "StateConn", "FilesystemConn",
   "Snapshots", "Live", "AllowInconsistent", "ClusterMoveSourceName", "StoragePool"]

/-- Names under which a field carrying the instance identity could
plausibly appear. -/
def isInstanceIdentityName (s : String) : Bool :=
  ["Instance", "InstanceName", "InstanceID", "Name", "ID"].contains s

/-- Claim C5 as stated: the descriptor passed to Send carries exactly the
enumerated configuration — in particular some field carries the instance
identity, and every field is one of the enumerated items. -/
def claimC5Stated : Prop :=
  (∃ f ∈ migrateSendArgsFields, isInstanceIdentityName f.name = true) ∧
    ∀ f ∈ migrateSendArgsFields,
      f.name ∈ c5ListedFieldNames ∨ isInstanceIdentityName f.name = true

/-- Claim C6 as stated: the checkpoint operation arguments comprise a
process handle, a state directory, a pre-dump directory, and a boolean
iterative flag. -/
def claimC6Stated : Prop :=
  (∃ f ∈ criuMigrationArgsFields, f.name = "StateDir") ∧
    (∃ f ∈ criuMigrationArgsFields, f.name = "PreDumpDir") ∧
    (∃ f ∈ criuMigrationArgsFields,
      (f.name = "Iterative" ∨ f.name = "iterative") ∧ f.ty = .base "bool") ∧
    ∃ f ∈ criuMigrationArgsFields,
      f.name ∈ ["Process", "ProcessHandle", "Pid", "InitPID"]

/-! ## Helper lemmas -/

theorem backupStep_max (m p : Int) : (if m ≤ p then p + 1 else m) = max m (p + 1) := by
  by_cases h : m ≤ p
  · rw [if_pos h, max_eq_right]
    omega
  · rw [if_neg h, max_eq_left]
    omega

theorem backupFold_filterMap (g : String → Option Int) (bs : List String) (m : Int) :
    bs.foldl
      (fun m b =>
        match g b with | none => m | some num => if m ≤ num then wrap64 (num + 1) else m) m
      = (bs.filterMap g).foldl (fun m num => if m ≤ num then wrap64 (num + 1) else m) m := by
  induction bs generalizing m with
  | nil => rfl
  | cons b t ih => cases hg : g b <;> simp [List.filterMap_cons, hg, ih]

theorem wrap64_eq_self (x : Int) (h1 : -(2 ^ 63) ≤ x) (h2 : x < 2 ^ 63) :
    wrap64 x = x := by
  unfold wrap64
  rw [Int.emod_eq_of_lt (by omega) (by omega)]
  omega

theorem sscanfInt_range {s : List Char} {p : Int} (h : sscanfInt s = some p) :
    -(2 ^ 63) ≤ p ∧ p ≤ 2 ^ 63 - 1 := by
  unfold sscanfInt at h
  repeat' split at h
  all_goals simp only [Option.some.injEq, reduceCtorEq] at h
  all_goals omega

theorem backupSuffixNum_range {base b : String} {p : Int}
    (h : backupSuffixNum base b = some p) : -(2 ^ 63) ≤ p ∧ p ≤ 2 ^ 63 - 1 := by
  unfold backupSuffixNum at h
  split at h
  · exact sscanfInt_range h
  · simp at h

theorem foldr_max_nonneg (l : List Int) :
    0 ≤ l.foldr (fun p acc => max (p + 1) acc) 0 := by
  induction l with
  | nil => exact le_refl 0
  | cons p t ih =>
    simp only [List.foldr_cons]
    exact le_trans ih (le_max_right _ _)

theorem foldl_max_foldr (l : List Int) : ∀ m : Int, 0 ≤ m →
    l.foldl (fun m p => max m (p + 1)) m
      = max m (l.foldr (fun p acc => max (p + 1) acc) 0) := by
  induction l with
  | nil =>
    intro m hm
    simp only [List.foldl_nil, List.foldr_nil]
    exact (max_eq_left hm).symm
  | cons p t ih =>
    intro m hm
    simp only [List.foldl_cons, List.foldr_cons]
    rw [ih (max m (p + 1)) (le_trans hm (le_max_left _ _)), max_assoc]

theorem foldr_max_perm {l1 l2 : List Int} (h : l1.Perm l2) :
    l1.foldr (fun p acc => max (p + 1) acc) 0
      = l2.foldr (fun p acc => max (p + 1) acc) 0 := by
  induction h with
  | nil => rfl
  | cons x _ ih => simp only [List.foldr_cons, ih]
  | swap x y l => simp only [List.foldr_cons]; rw [max_left_comm]
  | trans _ _ ih1 ih2 => exact ih1.trans ih2

theorem foldWrap_eq_max (nums : List Int) :
    ∀ m : Int, (∀ p ∈ nums, -(2 ^ 63) ≤ p ∧ p < 2 ^ 63 - 1) →
      nums.foldl (fun m num => if m ≤ num then wrap64 (num + 1) else m) m
        = nums.foldl (fun m num => max m (num + 1)) m := by
  induction nums with
  | nil => intro m _; rfl
  | cons p t ih =>
    intro m hb
    have hp := hb p (List.mem_cons_self p t)
    have hw : wrap64 (p + 1) = p + 1 := wrap64_eq_self _ (by omega) (by omega)
    simp only [List.foldl_cons]
    rw [hw, backupStep_max]
    exact ih _ (fun q hq => hb q (List.mem_cons_of_mem _ hq))

theorem backupNumsFold_eq_max (base : String) (bs : List String)
    (hb : ∀ p ∈ bs.filterMap (backupSuffixNum base), p < 2 ^ 63 - 1) :
    backupNumsFold base bs = backupNumsMax base bs := by
  unfold backupNumsFold backupNumsMax
  rw [backupFold_filterMap]
  have hlow : ∀ p ∈ bs.filterMap (backupSuffixNum base), -(2 ^ 63) ≤ p := by
    intro p hp
    obtain ⟨b, _, hgb⟩ := List.mem_filterMap.mp hp
    exact (backupSuffixNum_range hgb).1
  rw [foldWrap_eq_max _ 0 (fun p hp => ⟨hlow p hp, hb p hp⟩)]
  rw [foldl_max_foldr _ 0 (le_refl 0)]
  exact max_eq_right (foldr_max_nonneg _)

theorem backupNumsMax_perm (base : String) {bs bs2 : List String} (h : bs.Perm bs2) :
    backupNumsMax base bs = backupNumsMax base bs2 := by
  unfold backupNumsMax
  exact foldr_max_perm (h.filterMap _)

theorem lockReplace_keys (reg : LockRegistry) (instID : String) (newOp : InstanceOperation) :
    (reg.map (fun e => if e.fst == instID then (e.fst, newOp) else e)).map Prod.fst
      = reg.map Prod.fst := by
  induction reg with
  | nil => rfl
  | cons e t ih =>
    simp only [List.map_cons, ih]
    congr 1
    split <;> rfl

theorem lockLookup_replace (reg : LockRegistry) (instID : String) (newOp : InstanceOperation)
    (h : lockLookup reg instID ≠ none) :
    lockLookup (reg.map (fun e => if e.fst == instID then (e.fst, newOp) else e)) instID
      = some newOp := by
  induction reg with
  | nil => exact absurd rfl h
  | cons e t ih =>
    simp only [List.map_cons]
    by_cases he : e.fst == instID
    · rw [if_pos he]
      show (if (e.fst == instID) = true then some newOp else _) = some newOp
      rw [if_pos he]
    · rw [if_neg he]
      show (if (e.fst == instID) = true then some e.snd else _) = some newOp
      rw [if_neg he]
      rw [lockLookup] at h
      rw [if_neg he] at h
      exact ih h

theorem lockLookup_none_not_mem (reg : LockRegistry) (instID : String)
    (h : lockLookup reg instID = none) : instID ∉ reg.map Prod.fst := by
  induction reg with
  | nil => simp
  | cons e t ih =>
    rw [lockLookup] at h
    by_cases he : e.fst == instID
    · rw [if_pos he] at h
      exact absurd h (by simp)
    · rw [if_neg he] at h
      simp only [List.map_cons, List.mem_cons]
      rintro (rfl | hm)
      · exact he (beq_self_eq_true _)
      · exact ih h hm

/-! ## Claim theorems -/

/-- C2: in a cluster move, the source's authoritative identity record is
deleted only strictly after the destination has confirmed activation: the
event trace never contains a deletion before an ack, and when the
destination never confirms the operation reports Failed with the source
record left intact (the workload still runnable at the source); deletion
is never performed without the ack. -/
theorem clusterMove_record_deletion_after_ack :
    ∀ b : Bool,
      deletionGatedOnAck (clusterMove b).events = true ∧
      (clusterMove b).status = (if b then .succeeded else .failed) ∧
      (clusterMove b).sourceRecordPresent = !b := by
  decide

/-- C7: the cluster-move source name in the constructed migration
arguments is non-empty exactly when the migration is an intra-cluster
move (for a request whose source instance name is non-empty), and is the
empty string for every non-cluster-move migration. -/
theorem clusterMoveSourceName_iff (req : MigrationRequest)
    (h : req.sourceInstance ≠ "") :
    mkClusterMoveSourceName req ≠ "" ↔ req.isClusterMove = true := by
  rcases req with ⟨b, s⟩
  cases b <;> simp_all [mkClusterMoveSourceName]

/-- Witness for clusterMoveSourceName_iff at a concrete cluster-move
request. -/
theorem clusterMoveSourceName_iff_witness :
    mkClusterMoveSourceName ⟨true, "web1"⟩ ≠ ""
      ↔ (MigrationRequest.mk true "web1").isClusterMove = true :=
  clusterMoveSourceName_iff ⟨true, "web1"⟩ (by decide)

/-- C3 counterexample: the claim that every channel-establishing function
of MigrateArgs takes a cancellation context is false — ControlSend (and
ControlReceive) take a protobuf message and no context. -/
theorem migrateArgs_control_without_context : ¬ claimC3Stated := by
  unfold claimC3Stated
  decide

/-- C3 amended: of the MigrateArgs channel functions, the state and
filesystem connections are factory functions taking a cancellation
context (and returning a ReadWriteCloser), while the control channel is
supplied as send and receive functions over protobuf messages that take
no context. -/
theorem migrateArgs_channel_functions :
    ((migrateArgsFields.filter (fun f => channelFieldNames.contains f.name)).map
        (fun f => (f.name, f.ty)) =
      [("ControlSend", .fn ["proto.Message"] ["error"]),
       ("ControlReceive", .fn ["proto.Message"] ["error"]),
       ("StateConn", .fn ["context.Context"] ["io.ReadWriteCloser", "error"]),
       ("FilesystemConn", .fn ["context.Context"] ["io.ReadWriteCloser", "error"])]) ∧
    (∀ f ∈ migrateArgsFields, (f.name = "StateConn" ∨ f.name = "FilesystemConn") →
      f.ty.takesArg "context.Context" = true) ∧
    (∀ f ∈ migrateArgsFields, (f.name = "ControlSend" ∨ f.name = "ControlReceive") →
      f.ty.takesArg "context.Context" = false) := by
  decide

/-- C4 counterexample: no interface of instance_interface.go declares a
method CanLiveMigrate, so the claim that the unsupported variant reports
CanLiveMigrate() == false is false of this code. -/
theorem instance_no_canLiveMigrate : ¬ claimC4Stated := by
  unfold claimC4Stated
  decide

/-- C4 amended: the instance contract is polymorphic over exactly two
variant interfaces, Container and VM, and the live-migration capability
query on the shared Instance interface is CanMigrate(), returning a
string rather than a boolean. -/
theorem instance_two_variants_canMigrate_string :
    instanceVariants.map (fun i => i.name) = ["Container", "VM"] ∧
    instanceInterface.methods.find? (fun m => m.name == "CanMigrate")
      = some ⟨"CanMigrate", [], ["string"]⟩ ∧
    (∀ i ∈ instanceFileInterfaces, ∀ m ∈ i.methods, m.name ≠ "CanLiveMigrate") := by
  decide

/-- C5 counterexample: MigrateSendArgs does not carry exactly the claimed
configuration — no field carries the instance identity (MigrateSend is a
method on the instance itself), and the Disconnect callback field is not
among the enumerated items. -/
theorem migrateSendArgs_not_exactly_claimed : ¬ claimC5Stated := by
  unfold claimC5Stated
  decide

/-- C5 amended: the descriptor passed to MigrateSend carries the four
channel functions, the snapshots and live flags, a disconnect callback,
the optional cluster-move source name, the storage pool name, and the
AllowInconsistent flag — and no field carrying the instance identity. -/
theorem migrateSendArgs_fields_amended :
    migrateSendArgsFields.map (fun f => f.name) =
      ["ControlSend", "ControlReceive", "StateConn", "FilesystemConn", "Snapshots",
       "Live", "Disconnect", "ClusterMoveSourceName", "StoragePool", "AllowInconsistent"] ∧
    (∀ f ∈ migrateSendArgsFields, isInstanceIdentityName f.name = false) ∧
    (⟨"Disconnect", GoTy.fn [] []⟩ : GoField) ∈ migrateSendArgsFields ∧
    (⟨"AllowInconsistent", GoTy.base "bool"⟩ : GoField) ∈ migrateSendArgsFields := by
  decide

/-- C6 counterexample: the checkpoint migration argument record has no
process-handle field and no boolean iterative flag, so the claimed
Dump(processHandle, stateDir, preDumpDir, iterative bool) signature is
false of this code. -/
theorem criuArgs_no_iterative_flag : ¬ claimC6Stated := by
  unfold claimC6Stated
  decide

/-- C6 amended: checkpoint migration arguments are carried in
CriuMigrationArgs — Cmd (a uint selecting the CRIU operation, which is how
pre-dump versus final dump is chosen), the StateDir, Function, DumpDir and
PreDumpDir strings, the Stop and ActionScript booleans (the only boolean
fields), a CRIU feature set, and an operation-lock handle. -/
theorem criuArgs_fields_amended :
    criuMigrationArgsFields.map (fun f => f.name) =
      ["Cmd", "StateDir", "Function", "Stop", "ActionScript", "DumpDir",
       "PreDumpDir", "Features", "Op"] ∧
    (criuMigrationArgsFields.filter (fun f => f.ty == .base "bool")).map (fun f => f.name)
      = ["Stop", "ActionScript"] ∧
    (⟨"StateDir", GoTy.base "string"⟩ : GoField) ∈ criuMigrationArgsFields ∧
    (⟨"PreDumpDir", GoTy.base "string"⟩ : GoField) ∈ criuMigrationArgsFields ∧
    (⟨"Cmd", GoTy.base "uint"⟩ : GoField) ∈ criuMigrationArgsFields := by
  decide

/-- C10: in both the backup-create and the backup-rename handler, the
response is the BadRequest carrying the message about slashes exactly when
the effective backup name contains a slash, and the background operation
response (so an operation is created) exactly when it does not. -/
theorem backupHandlers_slash_badRequest :
    ∀ (v n : String) (ex : List String),
      (backupsPostTail v n ex = .badRequest backupNamesNoSlashesMsg ↔
        ((if n = "" then backupsPostDefaultName v ex else n).data.any
          (fun c => c == '/')) = true) ∧
      (backupsPostTail v n ex
          = .operationCreated (if n = "" then backupsPostDefaultName v ex else n) ↔
        ((if n = "" then backupsPostDefaultName v ex else n).data.any
          (fun c => c == '/')) = false) ∧
      (backupRenamePostTail v n = .badRequest backupNamesNoSlashesMsg ↔
        (n.data.any (fun c => c == '/')) = true) ∧
      (backupRenamePostTail v n = .operationCreated (v ++ snapshotDelimiter ++ n) ↔
        (n.data.any (fun c => c == '/')) = false) := by
  intro v n ex
  unfold backupsPostTail backupRenamePostTail
  cases h1 : (if n = "" then backupsPostDefaultName v ex else n).data.any (fun c => c == '/') <;>
    cases h2 : n.data.any (fun c => c == '/') <;>
      simp [h1, h2]

/-- C1: per instance identifier at most one lock entry exists (registry
well-formedness, preserved by acquisition): acquiring against a held
non-terminal lock fails with LockConflict when the action kind differs,
returns the existing handle for awaiting when it matches exactly, and
succeeds with a fresh pending lock once the held lock is terminal
(Succeeded or Failed) — and also when no lock is held at all. -/
theorem lockAcquire_exclusive (reg : LockRegistry) (instID action : String)
    (op : InstanceOperation) (hwf : lockRegistryWF reg) :
    (lockLookup reg instID = some op →
      ((op.state.isTerminal = false → op.action ≠ action →
          lockAcquire reg instID action = .lockConflict) ∧
       (op.state.isTerminal = false → op.action = action →
          lockAcquire reg instID action = .existing op) ∧
       (op.state.isTerminal = true →
          ∃ reg2, lockAcquire reg instID action = .acquired reg2 ⟨action, .pending⟩ ∧
            lockRegistryWF reg2 ∧ lockLookup reg2 instID = some ⟨action, .pending⟩))) ∧
    (lockLookup reg instID = none →
      lockAcquire reg instID action
          = .acquired ((instID, ⟨action, .pending⟩) :: reg) ⟨action, .pending⟩ ∧
        lockRegistryWF ((instID, ⟨action, .pending⟩) :: reg)) := by
  constructor
  · intro hl
    refine ⟨?_, ?_, ?_⟩
    · intro ht hne
      have hb : (op.action == action) = false := by
        cases hb2 : op.action == action
        · rfl
        · exact absurd (by simpa using hb2) hne
      simp [lockAcquire, hl, ht, hb]
    · intro ht heq
      simp [lockAcquire, hl, ht, heq]
    · intro ht
      refine ⟨reg.map (fun e => if e.fst == instID then (e.fst, ⟨action, .pending⟩) else e),
        ?_, ?_, ?_⟩
      · simp [lockAcquire, hl, ht]
      · unfold lockRegistryWF
        rw [lockReplace_keys]
        exact hwf
      · exact lockLookup_replace reg instID ⟨action, .pending⟩ (by simp [hl])
  · intro hl
    constructor
    · simp [lockAcquire, hl]
    · unfold lockRegistryWF
      simp only [List.map_cons]
      exact List.nodup_cons.mpr ⟨lockLookup_none_not_mem reg instID hl, hwf⟩

/-- Witness for lockAcquire_exclusive: an instance holding a running
migrate lock rejects a stop acquisition with LockConflict. -/
theorem lockAcquire_exclusive_witness :
    lockAcquire [("web1", ⟨"migrate", .running⟩)] "web1" "stop" = .lockConflict :=
  ((lockAcquire_exclusive [("web1", ⟨"migrate", .running⟩)] "web1" "stop"
      ⟨"migrate", .running⟩ (by unfold lockRegistryWF; decide)).1 (by decide)).1
    (by decide) (by decide)

/-- C8 counterexample: with an existing backup named vol/backup07 the
handler generates backup8 (Sscanf scans the suffix 07 as 7), while the
claim — no existing backup is named with the exact decimal digits of any
k — demands backup0. -/
theorem backupDefaultName_claim_false : ¬ claimC8At "vol" ["vol/backup07"] := by
  unfold claimC8At
  decide

/-- C8 amended: the generated default backup name is "backupN" where N is
one greater than the largest value obtained by scanning, with Sscanf %d
semantics (leading spaces skipped, optional sign, trailing characters
ignored; the scan fails and the entry is skipped on a newline before the
digits, on a missing digit, and on a value outside the signed 64-bit int
range), the suffix after the prefix volumeName/backup of an existing
backup, counting only nonnegative scanned values, and 0 when there is
none — equivalently the order-independent maximum backupNumsMax, so the
result is the same for any enumeration order — provided no scanned value
is the maximum int64, where the counter's increment would wrap. -/
theorem backupDefaultName_amended :
    ∀ (volumeName : String) (backups backups2 : List String), backups.Perm backups2 →
      (∀ p ∈ backups.filterMap
          (backupSuffixNum (volumeName ++ snapshotDelimiter ++ "backup")), p < 2 ^ 63 - 1) →
      backupsPostDefaultName volumeName backups =
        "backup" ++ toString (backupNumsMax (volumeName ++ snapshotDelimiter ++ "backup") backups) ∧
      backupsPostDefaultName volumeName backups = backupsPostDefaultName volumeName backups2 := by
  intro v bs bs2 h hb
  have hb2 : ∀ p ∈ bs2.filterMap (backupSuffixNum (v ++ snapshotDelimiter ++ "backup")),
      p < 2 ^ 63 - 1 := by
    intro p hp
    exact hb p (((h.filterMap _).mem_iff).mpr hp)
  constructor
  · simp only [backupsPostDefaultName]
    rw [backupNumsFold_eq_max _ _ hb]
  · simp only [backupsPostDefaultName]
    rw [backupNumsFold_eq_max _ _ hb, backupNumsFold_eq_max _ _ hb2, backupNumsMax_perm _ h]

/-- Witness for backupDefaultName_amended at a concrete volume with two
existing backups enumerated in both orders. -/
theorem backupDefaultName_amended_witness :
    backupsPostDefaultName "vol" ["a", "vol/backup3"] =
      "backup" ++ toString (backupNumsMax ("vol" ++ snapshotDelimiter ++ "backup")
        ["a", "vol/backup3"]) ∧
    backupsPostDefaultName "vol" ["a", "vol/backup3"]
      = backupsPostDefaultName "vol" ["vol/backup3", "a"] :=
  backupDefaultName_amended "vol" ["a", "vol/backup3"] ["vol/backup3", "a"]
    (by decide) (by decide)

/-- C9: certificateValidate errors exactly when the current time is
before NotBefore, or after NotAfter, or the certificate uses the RSA
algorithm and its key cannot be read as an RSA key or is under 2048 bits
— so a time-valid non-RSA certificate passes with no key-size check; and
both the certificate-adding handler and the certificate-replacing update
path accept or reject according to that same validation. -/
theorem certificateValidate_iff :
    ∀ (now : Int) (cert : Certificate),
      ((certificateValidate now cert).isSome = true ↔
        (now < cert.notBefore ∨ cert.notAfter < now ∨
          (cert.publicKeyAlgorithm = .rsa ∧
            (cert.publicKey = .otherKey ∨
              ∃ s, cert.publicKey = .rsaKey s ∧ s * 8 < 2048)))) ∧
      (∀ (c : Certificate) (tlsPeers : Option (List Certificate)),
        certificatesPostCertCheck now (some c) tlsPeers = .accepted c ↔
          certificateValidate now c = none) ∧
      (∀ (c : Certificate) (e : CertError) (tlsPeers : Option (List Certificate)),
        certificatesPostCertCheck now (some c) tlsPeers = .badRequest e ↔
          certificateValidate now c = some e) ∧
      (∀ (peers : List Certificate) (c : Certificate),
        certificatesPostCertCheck now none (some (peers ++ [c])) = .accepted c ↔
          certificateValidate now c = none) ∧
      (∀ c : Certificate,
        doCertificateUpdateCertCheck now (some c) = .updated (some c) ↔
          certificateValidate now c = none) ∧
      (∀ (c : Certificate) (e : CertError),
        doCertificateUpdateCertCheck now (some c) = .badRequest e ↔
          certificateValidate now c = some e) := by
  intro now cert
  refine ⟨?_, ?_, ?_, ?_, ?_, ?_⟩
  · rcases cert with ⟨nb, na, alg, key⟩
    simp only [certificateValidate]
    by_cases h1 : now < nb
    · simp [h1]
    · by_cases h2 : na < now
      · simp [h1, h2]
      · by_cases h3 : alg = PubKeyAlg.rsa
        · cases key with
          | otherKey => simp [h1, h2, h3]
          | rsaKey s =>
            by_cases h4 : s * 8 < 2048 <;> simp [h1, h2, h3, h4]
        · simp [h1, h2, h3]
  · intro c tlsPeers
    cases h : certificateValidate now c <;> simp [certificatesPostCertCheck, h]
  · intro c e tlsPeers
    cases h : certificateValidate now c <;> simp [certificatesPostCertCheck, h, eq_comm]
  · intro peers c
    cases h : certificateValidate now c <;>
      simp [certificatesPostCertCheck, List.getLast?_concat, h]
  · intro c
    cases h : certificateValidate now c <;> simp [doCertificateUpdateCertCheck, h]
  · intro c e
    cases h : certificateValidate now c <;> simp [doCertificateUpdateCertCheck, h, eq_comm]

end Incus
